import Mathlib

/-!
Shallow embedding of the lazyk8s resource-selection core
(`src/lazyk8s/k8s_client.py` and `src/lazyk8s/gui.py`) and proofs about it.

Python `None`-or-object fields become `Option`; Python string truthiness
(`if s:`) becomes an explicit emptiness test; exceptions raised by the
kubernetes gateway become an `Except` parameter supplied to the boundary
functions; iteration becomes structural recursion over lists.
-/

namespace LazyK8s

/-! ## Data model (mirrors the kubernetes `V1Pod` fields the code reads) -/

/-- Mirrors `V1ContainerStateWaiting` / `V1ContainerStateTerminated`: only the
`reason` field is read by the code. -/
structure StateDetail where
  reason : Option String
deriving DecidableEq, Repr

/-- Mirrors `V1ContainerState`: `waiting` / `terminated` sub-objects (either may be
absent); the code never reads `running`. -/
structure CState where
  waiting : Option StateDetail
  terminated : Option StateDetail
deriving DecidableEq, Repr

/-- Mirrors `V1ContainerStatus`: the fields read by `get_pod_status`. -/
structure ContainerStatus where
  ready : Bool
  restart_count : Nat
  state : CState
deriving DecidableEq, Repr

/-- Mirrors `V1PodStatus`: the fields read by `get_pod_status`.
`container_statuses` is `None` or a list in the Python client. -/
structure PodStatus where
  phase : String
  reason : Option String
  container_statuses : Option (List ContainerStatus)
deriving DecidableEq, Repr

/-- Mirrors `V1Container` inside `pod.spec.containers`. -/
structure ContainerSpec where
  name : String
  image : String
deriving DecidableEq, Repr

/-- Mirrors `V1PodSpec`: the fields read by the code. -/
structure PodSpec where
  containers : List ContainerSpec
deriving DecidableEq, Repr

/-- Mirrors `V1Pod`: `metadata.name` flattened to `name`. -/
structure V1Pod where
  name : String
  spec : PodSpec
  status : PodStatus
deriving DecidableEq, Repr

/-! ## Status deriver: `K8sClient.get_pod_status` (k8s_client.py:127-147) -/

/-- Python truthiness of `cs.state.waiting and cs.state.waiting.reason`:
the waiting reason, provided the waiting state is present and its reason
is a non-empty string. -/
def waitingReason (cs : ContainerStatus) : Option String :=
  match cs.state.waiting with
  | none => none
  | some w =>
    match w.reason with
    | none => none
    | some r => if r == "" then none else some r

/-- Python truthiness of `cs.state.terminated and cs.state.terminated.reason`. -/
def terminatedReason (cs : ContainerStatus) : Option String :=
  match cs.state.terminated with
  | none => none
  | some t =>
    match t.reason with
    | none => none
    | some r => if r == "" then none else some r

/-- The `if cs.state.waiting and ... elif cs.state.terminated and ...`
phase update of one loop iteration in `get_pod_status`. -/
def csPhaseUpdate (phase : String) (cs : ContainerStatus) : String :=
  match waitingReason cs with
  | some r => r
  | none =>
    match terminatedReason cs with
    | some r => r
    | none => phase

/-- The `for cs in pod.status.container_statuses` loop of `get_pod_status`,
threading `phase`, `restarts` and `ready` through the iterations. -/
def statusLoop : String → Nat → Nat → List ContainerStatus → String × Nat × Nat
  | phase, restarts, ready, [] => (phase, restarts, ready)
  | phase, restarts, ready, cs :: rest =>
    statusLoop (csPhaseUpdate phase cs) (restarts + cs.restart_count)
      (if cs.ready then ready + 1 else ready) rest

/-- Python truthiness of a list-valued field (`None` and `[]` are falsy). -/
def listTruthy (l : Option (List ContainerStatus)) : Bool :=
  match l with
  | none => false
  | some xs => !xs.isEmpty

/-- Mirrors `get_pod_status` up to (and excluding) the final f-string formatting:
returns `(phase, ready, total, restarts)`. -/
def get_pod_status_parts (pod : V1Pod) : String × Nat × Nat × Nat :=
  let phase0 :=
    match pod.status.reason with
    | some r => if r == "" then pod.status.phase else r
    | none => pod.status.phase
  let total := if listTruthy pod.status.container_statuses then
      (pod.status.container_statuses.getD []).length else 0
  let css := if listTruthy pod.status.container_statuses then
      pod.status.container_statuses.getD [] else []
  let (phase, restarts, ready) := statusLoop phase0 0 0 css
  (phase, ready, total, restarts)

/-- Mirrors `get_pod_status`: the returned human-readable string
`f"{phase} ({ready}/{total}) Restarts:{restarts}"`. -/
def get_pod_status (pod : V1Pod) : String :=
  let (phase, ready, total, restarts) := get_pod_status_parts pod
  phase ++ " (" ++ toString ready ++ "/" ++ toString total ++ ") Restarts:"
    ++ toString restarts

/-! ### Specification-side helpers for the status deriver -/

/-- The reason a single ContainerStatus entry contributes to the phase
override: its waiting reason if non-empty, else its terminated reason if
non-empty, else nothing. -/
def entryReason (cs : ContainerStatus) : Option String :=
  match waitingReason cs with
  | some r => some r
  | none => terminatedReason cs

/-- The last contributed override reason in list order, if any. -/
def lastReason : List ContainerStatus → Option String
  | [] => none
  | cs :: rest =>
    match lastReason rest with
    | some r => some r
    | none => entryReason cs

/-- Sum of restart counts over a container-status list. -/
def sumRestarts (l : List ContainerStatus) : Nat :=
  (l.map (fun cs => cs.restart_count)).sum

/-- Number of entries whose ready flag is set. -/
def countReady (l : List ContainerStatus) : Nat :=
  (l.filter (fun cs => cs.ready)).length

lemma listTruthy_getD (o : Option (List ContainerStatus)) :
    (if listTruthy o then o.getD [] else []) = o.getD [] := by
  cases o with
  | none => simp [listTruthy]
  | some xs =>
    cases xs with
    | nil => simp [listTruthy]
    | cons x t => simp [listTruthy]

lemma listTruthy_length (o : Option (List ContainerStatus)) :
    (if listTruthy o then (o.getD []).length else 0) = (o.getD []).length := by
  cases o with
  | none => simp [listTruthy]
  | some xs =>
    cases xs with
    | nil => simp [listTruthy]
    | cons x t => simp [listTruthy]

lemma statusLoop_restarts (l : List ContainerStatus) :
    ∀ p r rd, (statusLoop p r rd l).2.1 = r + sumRestarts l := by
  induction l with
  | nil => intro p r rd; simp [statusLoop, sumRestarts]
  | cons cs rest ih =>
    intro p r rd
    simp only [statusLoop, ih, sumRestarts, List.map_cons, List.sum_cons]
    omega

lemma statusLoop_ready (l : List ContainerStatus) :
    ∀ p r rd, (statusLoop p r rd l).2.2 = rd + countReady l := by
  induction l with
  | nil => intro p r rd; simp [statusLoop, countReady]
  | cons cs rest ih =>
    intro p r rd
    simp only [statusLoop, ih, countReady]
    cases h : cs.ready <;> simp [List.filter_cons, h]
    all_goals omega

lemma csPhaseUpdate_eq_entryReason (p : String) (cs : ContainerStatus) :
    csPhaseUpdate p cs = (entryReason cs).getD p := by
  unfold csPhaseUpdate entryReason
  cases waitingReason cs with
  | some r => rfl
  | none =>
    cases terminatedReason cs with
    | some r => rfl
    | none => rfl

lemma statusLoop_phase (l : List ContainerStatus) :
    ∀ p r rd, (statusLoop p r rd l).1 = (lastReason l).getD p := by
  induction l with
  | nil => intro p r rd; simp [statusLoop, lastReason]
  | cons cs rest ih =>
    intro p r rd
    simp only [statusLoop, ih, lastReason, csPhaseUpdate_eq_entryReason]
    cases h : lastReason rest with
    | some r => rfl
    | none =>
      cases entryReason cs with
      | some r => rfl
      | none => rfl

/-- C2: the derived status has ready ≤ total, total = length of the
container-status list (0 when absent), restarts = the sum of restart
counts. -/
theorem c2_status_counts (pod : V1Pod) :
    (get_pod_status_parts pod).2.1 ≤ (get_pod_status_parts pod).2.2.1 ∧
    (get_pod_status_parts pod).2.2.1 =
      (match pod.status.container_statuses with
       | some l => l.length
       | none => 0) ∧
    (get_pod_status_parts pod).2.2.2 =
      sumRestarts (pod.status.container_statuses.getD []) := by
  unfold get_pod_status_parts
  simp only [listTruthy_getD, listTruthy_length, statusLoop_restarts,
    statusLoop_ready, Nat.zero_add]
  refine ⟨?_, ?_, trivial⟩
  · calc countReady (pod.status.container_statuses.getD [])
        ≤ (pod.status.container_statuses.getD []).length :=
          List.length_filter_le _ _
      _ = _ := by cases pod.status.container_statuses <;> rfl
  · cases pod.status.container_statuses <;> rfl

/-- C3: whenever some container status contributes an override reason, the
derived display phase is the last such reason in list order, overriding the
raw phase and the top-level reason; a non-empty waiting reason takes
precedence over the terminated reason within one entry. -/
theorem c3_phase_last_reason (pod : V1Pod) (r : String)
    (h : lastReason (pod.status.container_statuses.getD []) = some r) :
    (get_pod_status_parts pod).1 = r ∧
    (∀ (cs : ContainerStatus) (w : String),
      waitingReason cs = some w → entryReason cs = some w) := by
  constructor
  · unfold get_pod_status_parts
    simp only [listTruthy_getD, statusLoop_phase, h, Option.getD_some]
  · intro cs w hw
    unfold entryReason
    rw [hw]

/-- A pod whose phase, top-level reason, and two container statuses exercise
the override path: the first status has both a waiting and a terminated
reason, the second only a terminated reason. -/
def c3Pod : V1Pod :=
  { name := "crash-1",
    spec := { containers := [{ name := "app", image := "img" }] },
    status :=
      { phase := "Running",
        reason := some "Evicted",
        container_statuses := some
          [{ ready := false, restart_count := 2,
             state := { waiting := some { reason := some "CrashLoopBackOff" },
                        terminated := some { reason := some "Error" } } },
           { ready := true, restart_count := 1,
             state := { waiting := none,
                        terminated := some { reason := some "OOMKilled" } } }] } }

theorem c3_phase_last_reason_witness :
    lastReason (c3Pod.status.container_statuses.getD []) = some "OOMKilled" ∧
    (get_pod_status_parts c3Pod).1 = "OOMKilled" :=
  ⟨by decide, (c3_phase_last_reason c3Pod "OOMKilled" (by decide)).1⟩

/-! ## String helpers: Python `x in s`, `.upper()`, `.lower()`, `.split("\n")`

Lean core's `String.splitOn`/`String.map` use well-founded recursion, which
the kernel cannot evaluate on closed terms, so the same operations are
defined structurally over the character list of the string. -/

def startsWithChars : List Char → List Char → Bool
  | [], _ => true
  | _ :: _, [] => false
  | a :: as, b :: bs => a == b && startsWithChars as bs

/-- Python substring test `needle in hay` over character lists. -/
def occursIn (needle : List Char) : List Char → Bool
  | [] => needle.isEmpty
  | b :: bs => startsWithChars needle (b :: bs) || occursIn needle bs

/-- Python `needle in hay` on strings. -/
def strContains (hay needle : String) : Bool :=
  occursIn needle.toList hay.toList

/-- Python `s.upper()`. -/
def strUpper (s : String) : String :=
  String.mk (s.toList.map Char.toUpper)

/-- Python `s.lower()`. -/
def strLower (s : String) : String :=
  String.mk (s.toList.map Char.toLower)

/-- Python `s.split("\n")` over character lists: splits on every newline and
keeps empty pieces. -/
def splitNl : List Char → List (List Char)
  | [] => [[]]
  | c :: cs =>
    if c == '\n' then [] :: splitNl cs
    else
      match splitNl cs with
      | [] => [[c]]
      | l :: ls => (c :: l) :: ls

/-- Python `logs.split("\n")`. -/
def splitLines (s : String) : List String :=
  (splitNl s.toList).map (fun cs => String.mk cs)

/-! ## Log presenter: the tail of `LazyK8sApp.show_pod_logs` (gui.py:338-346) -/

/-- Severity of a displayed log line (red / yellow / plain in the source). -/
inductive Severity where
  | error
  | warning
  | normal
deriving DecidableEq, Repr

/-- The per-line colorization rule of `show_pod_logs`: case-insensitive
token search, ERROR/FATAL before WARN/WARNING. -/
def classifyLine (line : String) : Severity :=
  if ["ERROR", "FATAL"].any (fun lvl => strContains (strUpper line) lvl) then
    Severity.error
  else if ["WARN", "WARNING"].any (fun lvl => strContains (strUpper line) lvl) then
    Severity.warning
  else
    Severity.normal

/-- The `for line in logs.split("\n")` loop: lines that are empty (falsy)
are skipped; each retained line is written with its severity. -/
def renderLogLines : List String → List (String × Severity)
  | [] => []
  | line :: rest =>
    if line != "" then (line, classifyLine line) :: renderLogLines rest
    else renderLogLines rest

/-- The log-presentation part of `show_pod_logs` as a function of the raw
log string returned by the gateway. -/
def present (logs : String) : List (String × Severity) :=
  renderLogLines (splitLines logs)

lemma renderLogLines_eq (ls : List String) :
    renderLogLines ls =
      (ls.filter (fun line => line != "")).map
        (fun line => (line, classifyLine line)) := by
  induction ls with
  | nil => rfl
  | cons line rest ih =>
    cases h : line != "" <;>
      simp [renderLogLines, List.filter_cons, h, ih]

/-- C5: the presenter splits the raw log on newlines, drops empty lines,
and classifies each retained line independently, preserving order; on the
spec's example input it yields [normal, error, warning]. -/
theorem c5_present_classifies :
    (∀ logs : String, present logs =
      ((splitLines logs).filter (fun line => line != "")).map
        (fun line => (line, classifyLine line))) ∧
    present "INFO ok\n\nERROR boom\nWARN low disk" =
      [("INFO ok", Severity.normal), ("ERROR boom", Severity.error),
       ("WARN low disk", Severity.warning)] := by
  constructor
  · intro logs
    exact renderLogLines_eq (splitLines logs)
  · decide

/-! ## Fuzzy namespace filter: `K8sClient.fuzzy_search_namespaces`
(k8s_client.py:153-159) -/

/-- Mirrors `fuzzy_search_namespaces`: empty query returns the stored list; otherwise
case-insensitive substring filter over it. -/
def fuzzy_search_namespaces (namespace_list : List String) (search : String) :
    List String :=
  if search == "" then namespace_list
  else
    namespace_list.filter (fun ns => strContains (strLower ns) (strLower search))

/-- C6: empty query returns the full list unchanged; any result is an
order-preserving sublist; a non-empty query keeps exactly the entries
containing it case-insensitively; and the spec's example holds. -/
theorem c6_fuzzy_filter :
    (∀ l : List String, fuzzy_search_namespaces l "" = l) ∧
    (∀ (l : List String) (q : String),
      List.Sublist (fuzzy_search_namespaces l q) l) ∧
    (∀ (l : List String) (q x : String), q ≠ "" →
      (x ∈ fuzzy_search_namespaces l q ↔
        x ∈ l ∧ strContains (strLower x) (strLower q) = true)) ∧
    fuzzy_search_namespaces ["Default", "kube-system", "prod-eu"] "ROD" =
      ["prod-eu"] := by
  refine ⟨?_, ?_, ?_, ?_⟩
  · intro l; rfl
  · intro l q
    unfold fuzzy_search_namespaces
    cases h : q == "" with
    | true => simp
    | false => simp [List.filter_sublist]
  · intro l q x hq
    have h : (q == "") = false := beq_eq_false_iff_ne.mpr hq
    simp [fuzzy_search_namespaces, h, List.mem_filter]
  · decide

theorem c6_fuzzy_filter_witness :
    "prod-eu" ∈ fuzzy_search_namespaces ["Default", "kube-system", "prod-eu"] "ROD" ↔
      "prod-eu" ∈ ["Default", "kube-system", "prod-eu"] ∧
        strContains (strLower "prod-eu") (strLower "ROD") = true :=
  c6_fuzzy_filter.2.2.1 ["Default", "kube-system", "prod-eu"] "ROD" "prod-eu"
    (by decide)

/-! ## Gateway boundaries (k8s_client.py)

Each `try/except ApiException` boundary takes the outcome of the underlying
kubernetes API call as an `Except String` value (the error string standing
for the exception's message). -/

/-- Mirrors `K8sClient.get_pods` (k8s_client.py:62-69): an `ApiException` from
`list_namespaced_pod` is logged and converted to `[]`. -/
def get_pods (gw : Except String (List V1Pod)) : List V1Pod :=
  match gw with
  | Except.ok pods => pods
  | Except.error _ => []

/-- Mirrors `K8sClient.get_pod_logs` (k8s_client.py:79-91): `fetch` is
`read_namespaced_pod_log` as a function of `tail_lines` (a non-following
tail fetch); an `ApiException` becomes the string `"Error: ..."`. -/
def get_pod_logs (fetch : Nat → Except String String) (lines : Nat) : String :=
  match fetch lines with
  | Except.ok logs => logs
  | Except.error e => "Error: " ++ e

/-- Mirrors `K8sClient.stream_pod_logs` (k8s_client.py:93-106): the same
non-following tail fetch with `tail_lines=100`, same error conversion. -/
def stream_pod_logs (fetch : Nat → Except String String) : String :=
  match fetch 100 with
  | Except.ok logs => logs
  | Except.error e => "Error: " ++ e

/-- Mirrors `K8sClient._refresh_namespaces` (k8s_client.py:41-48): on success the
namespace list is replaced; on `ApiException` the handler logs and then
re-raises, so the error propagates to the caller. -/
def refresh_namespaces (gw : Except String (List String)) :
    Except String (List String) :=
  match gw with
  | Except.ok namespaces => Except.ok namespaces
  | Except.error e => Except.error e

/-- C7 counterexample: a namespace-listing failure is re-raised by
`_refresh_namespaces`, i.e. it propagates as an exception instead of being
absorbed at the boundary. -/
theorem c7_counterexample :
    refresh_namespaces (Except.error "ApiException: 403 Forbidden") =
      Except.error "ApiException: 403 Forbidden" := rfl

/-- C7 amended: pod-list failure yields an empty list and log-retrieval
failure yields a single `"Error: ..."` line (successes pass through), but a
namespace-listing failure is re-raised rather than absorbed. -/
theorem c7_boundary_amended :
    (∀ e : String, get_pods (Except.error e) = []) ∧
    (∀ (e : String) (lines : Nat),
      get_pod_logs (fun _ => Except.error e) lines = "Error: " ++ e) ∧
    (∀ e : String, refresh_namespaces (Except.error e) = Except.error e) ∧
    (∀ pods : List V1Pod, get_pods (Except.ok pods) = pods) ∧
    (∀ (logs : String) (lines : Nat),
      get_pod_logs (fun _ => Except.ok logs) lines = logs) :=
  ⟨fun _ => rfl, fun _ _ => rfl, fun _ => rfl, fun _ => rfl, fun _ _ => rfl⟩

/-- C10: `stream_pod_logs` behaves exactly like `get_pod_logs` with
`lines = 100`, for every gateway behavior (success or exception). -/
theorem c10_stream_refines_get (fetch : Nat → Except String String) :
    stream_pod_logs fetch = get_pod_logs fetch 100 := rfl

/-! ## Interactive shell: `LazyK8sApp.action_open_shell` (gui.py:384-421) -/

/-- Outcome of one `subprocess.run(["kubectl", "exec", ..., shell])` call:
either the call raises before a process runs, or it completes with an exit
code. -/
inductive RunOutcome where
  | startFailure
  | exits (code : Int)
deriving DecidableEq, Repr

/-- The `for shell in [...]` loop of `action_open_shell`: an exception makes
the loop `continue`; a completed run `break`s only when its exit code is 0.
Returns the shells attempted in order and the shell at which the loop broke,
if any. -/
def tryShells (behavior : String → RunOutcome) :
    List String → List String × Option String
  | [] => ([], none)
  | shell :: rest =>
    match behavior shell with
    | RunOutcome.startFailure =>
      let (tried, accepted) := tryShells behavior rest
      (shell :: tried, accepted)
    | RunOutcome.exits code =>
      if code == 0 then ([shell], some shell)
      else
        let (tried, accepted) := tryShells behavior rest
        (shell :: tried, accepted)

/-- The fixed candidate list of `action_open_shell`. -/
def shellCandidates : List String := ["/bin/bash", "/bin/sh", "/bin/ash"]

/-- The shell-trying part of `action_open_shell`. -/
def action_open_shell (behavior : String → RunOutcome) :
    List String × Option String :=
  tryShells behavior shellCandidates

/-- A run behavior where /bin/bash starts and exits with code 1 and every
other shell exits with code 0. -/
def c8Behavior : String → RunOutcome := fun shell =>
  if shell == "/bin/bash" then RunOutcome.exits 1 else RunOutcome.exits 0

/-- C8 counterexample: /bin/bash starts successfully (it completes with exit
code 1), yet the loop goes on to try and accept /bin/sh — a later candidate
is tried after a shell has started. -/
theorem c8_counterexample :
    c8Behavior "/bin/bash" = RunOutcome.exits 1 ∧
    action_open_shell c8Behavior = (["/bin/bash", "/bin/sh"], some "/bin/sh") :=
  ⟨rfl, rfl⟩

/-- Whether a candidate's run completes with exit code 0 (the loop's `break`
condition). -/
def exitsZero (behavior : String → RunOutcome) (shell : String) : Bool :=
  match behavior shell with
  | RunOutcome.exits code => code == 0
  | RunOutcome.startFailure => false

/-- C8 amended: the loop accepts the first candidate (in order) whose run
completes with exit code 0 — not the first that merely starts; every earlier
candidate is attempted whether it failed to start or exited nonzero, and if
no candidate exits 0 all are attempted and none is accepted. -/
theorem c8_first_zero_exit (behavior : String → RunOutcome)
    (cands : List String) :
    (tryShells behavior cands).2 = cands.find? (exitsZero behavior) ∧
    (tryShells behavior cands).1 =
      cands.takeWhile (fun s => !exitsZero behavior s) ++
        (cands.find? (exitsZero behavior)).toList := by
  induction cands with
  | nil => exact ⟨rfl, rfl⟩
  | cons shell rest ih =>
    cases hb : behavior shell with
    | startFailure =>
      simp [tryShells, List.find?, List.takeWhile, exitsZero, hb, ih.1, ih.2]
    | exits code =>
      cases hc : code == 0 with
      | true =>
        simp [tryShells, List.find?, List.takeWhile, exitsZero, hb, hc]
      | false =>
        simp [tryShells, List.find?, List.takeWhile, exitsZero, hb, hc,
          ih.1, ih.2]

/-! ## Selection state (gui.py / k8s_client.py mutable fields)

`LazyK8sApp` keeps `self.pods` and the reactives `selected_pod`,
`selected_container`, `current_namespace`; `K8sClient` keeps
`self.namespace` and `self._namespace_list`. Widget updates (ListView
contents, panels) are display-only and carry no selection state of their
own. -/

structure AppState where
  pods : List V1Pod
  selected_pod : Option V1Pod
  selected_container : Option String
  current_namespace : String
deriving DecidableEq, Repr

/-- Mirrors `LazyK8sApp.refresh_pods` (gui.py:275-282): stores the fetched pod list
and rebuilds the pods ListView; the selection reactives are not touched. -/
def refresh_pods (s : AppState) (fetched : List V1Pod) : AppState :=
  { s with pods := fetched }

/-- Mirrors `LazyK8sApp.action_refresh` (gui.py:365-371): `refresh_pods`, then
display-only refreshes (containers/info/logs) when a pod is selected; no
further state change. -/
def action_refresh (s : AppState) (fetched : List V1Pod) : AppState :=
  refresh_pods s fetched

/-- A pod named `web-1` with a single container `app`. -/
def webPod : V1Pod :=
  { name := "web-1",
    spec := { containers := [{ name := "app", image := "nginx" }] },
    status := { phase := "Running", reason := none,
                container_statuses := none } }

/-- A state in which `web-1`/`app` is selected and cached. -/
def c1State : AppState :=
  { pods := [webPod], selected_pod := some webPod,
    selected_container := some "app", current_namespace := "default" }

/-- C1 counterexample: refreshing with a pod list that no longer contains
the selected pod `web-1` leaves both the selected pod and the selected
container set — nothing is cleared. -/
theorem c1_counterexample :
    (refresh_pods c1State []).pods = [] ∧
    (refresh_pods c1State []).selected_pod = some webPod ∧
    (refresh_pods c1State []).selected_container = some "app" ∧
    (action_refresh c1State []).selected_pod = some webPod :=
  ⟨rfl, rfl, rfl, rfl⟩

/-- C1 amended: a pod-list refresh replaces the cached list and leaves both
selection components unchanged (`action_refresh` adds only display
refreshes); consequently it preserves — but does not establish — the
invariant that the container is only set while a pod is selected. -/
theorem c1_refresh_keeps_selection (s : AppState) (fetched : List V1Pod) :
    (refresh_pods s fetched).pods = fetched ∧
    (refresh_pods s fetched).selected_pod = s.selected_pod ∧
    (refresh_pods s fetched).selected_container = s.selected_container ∧
    action_refresh s fetched = refresh_pods s fetched ∧
    ((s.selected_pod = none → s.selected_container = none) →
      (refresh_pods s fetched).selected_pod = none →
        (refresh_pods s fetched).selected_container = none) :=
  ⟨rfl, rfl, rfl, rfl, fun hinv hp => hinv hp⟩

/-- A state with no selection at all. -/
def emptySelState : AppState :=
  { pods := [], selected_pod := none, selected_container := none,
    current_namespace := "default" }

theorem c1_refresh_keeps_selection_witness :
    (refresh_pods emptySelState [webPod]).selected_container = none :=
  (c1_refresh_keeps_selection emptySelState [webPod]).2.2.2.2
    (fun _ => rfl) rfl

/-! ## Namespace change: `K8sClient.set_namespace` (k8s_client.py:58-60)
and `LazyK8sApp.action_change_namespace` (gui.py:373-377) -/

structure ClientState where
  curNamespace : String
  namespace_list : List String
deriving DecidableEq, Repr

/-- Mirrors `K8sClient.set_namespace`: assigns `self.namespace` and nothing else.
(The Python field is `namespace`; that word is a Lean keyword, hence
`curNamespace`.) -/
def set_namespace (c : ClientState) (ns : String) : ClientState :=
  { c with curNamespace := ns }

/-- The whole program state: the client object plus the GUI app state. -/
structure FullState where
  client : ClientState
  app : AppState
deriving DecidableEq, Repr

/-- Effect of `K8sClient.set_namespace` on the whole program state: only the
client's namespace field is assigned; the app's cached pods and selection
are not touched. -/
def set_namespace_full (s : FullState) (ns : String) : FullState :=
  { s with client := set_namespace s.client ns }

/-- Mirrors `LazyK8sApp.action_change_namespace`: only refreshes the status-bar
display ("simplified - just refresh" in the source); no state field
changes and `set_namespace` is not called. -/
def action_change_namespace (s : FullState) : FullState := s

/-- A full state with `web-1`/`app` selected in namespace `default`. -/
def c4State : FullState :=
  { client := { curNamespace := "default",
                namespace_list := ["default", "staging"] },
    app := { pods := [webPod], selected_pod := some webPod,
             selected_container := some "app",
             current_namespace := "default" } }

/-- C4 counterexample: setting the namespace to `staging` while
(`web-1`, `app`) is selected updates the namespace but clears neither the
cached pod list nor the selection. -/
theorem c4_counterexample :
    (set_namespace_full c4State "staging").client.curNamespace = "staging" ∧
    (set_namespace_full c4State "staging").app.pods = [webPod] ∧
    (set_namespace_full c4State "staging").app.selected_pod = some webPod ∧
    (set_namespace_full c4State "staging").app.selected_container
      = some "app" :=
  ⟨rfl, rfl, rfl, rfl⟩

/-- C4 amended: `set_namespace` assigns only the current namespace, leaving
the namespace list, cached pods and selection untouched, and the GUI's
namespace action changes no state at all. -/
theorem c4_set_namespace_only (s : FullState) (ns : String) :
    (set_namespace_full s ns).client.curNamespace = ns ∧
    (set_namespace_full s ns).client.namespace_list
      = s.client.namespace_list ∧
    (set_namespace_full s ns).app = s.app ∧
    action_change_namespace s = s :=
  ⟨rfl, rfl, rfl, rfl⟩

/-! ## List selection: `LazyK8sApp.on_list_view_selected` (gui.py:348-363) -/

/-- The widget carried by a `ListView.Selected` event: a `PodItem` holding
its pod, or a `ContainerItem` holding its container name. -/
inductive SelectedItem where
  | podItem (pod : V1Pod)
  | containerItem (name : String)
deriving DecidableEq, Repr

/-- The id of the list view the event came from. -/
inductive ListViewId where
  | podsList
  | containersList
deriving DecidableEq, Repr

/-- Mirrors `on_list_view_selected`: inspects only the list id and the item's type,
then sets the selection unconditionally from the event's item; display
refreshes are side effects. -/
def on_list_view_selected (s : AppState) (viewId : ListViewId)
    (item : SelectedItem) : AppState :=
  match viewId with
  | ListViewId.podsList =>
    match item with
    | SelectedItem.podItem pod =>
      { s with selected_pod := some pod, selected_container := none }
    | SelectedItem.containerItem _ => s
  | ListViewId.containersList =>
    match item with
    | SelectedItem.containerItem name =>
      { s with selected_container := some name }
    | SelectedItem.podItem _ => s

/-- C9 counterexample: with an empty cached pod list and nothing selected,
a pod-item event for `web-1` (absent from the cache) still changes the
selection to that pod, and a container-item event sets the container while
no pod is selected — neither is a guarded no-op and no not-found signal
exists. -/
theorem c9_counterexample :
    emptySelState.pods = [] ∧
    (on_list_view_selected emptySelState ListViewId.podsList
      (SelectedItem.podItem webPod)).selected_pod = some webPod ∧
    (on_list_view_selected emptySelState ListViewId.containersList
      (SelectedItem.containerItem "app")).selected_container = some "app" ∧
    (on_list_view_selected emptySelState ListViewId.containersList
      (SelectedItem.containerItem "app")).selected_pod = none :=
  ⟨rfl, rfl, rfl, rfl⟩

/-- C9 amended: the selection handler validates nothing — a pod item always
becomes the selected pod (container cleared) whether or not it is in the
cached list, a container item always becomes the selected container whether
or not a pod is selected, and only a type/list-id mismatch leaves the state
unchanged. -/
theorem c9_selection_unguarded (s : AppState) (pod : V1Pod) (name : String) :
    on_list_view_selected s ListViewId.podsList (SelectedItem.podItem pod)
      = { s with selected_pod := some pod, selected_container := none } ∧
    on_list_view_selected s ListViewId.containersList
        (SelectedItem.containerItem name)
      = { s with selected_container := some name } ∧
    on_list_view_selected s ListViewId.podsList
        (SelectedItem.containerItem name) = s ∧
    on_list_view_selected s ListViewId.containersList
        (SelectedItem.podItem pod) = s :=
  ⟨rfl, rfl, rfl, rfl⟩

end LazyK8s
